import Mathlib

/-!
Verification of the real-time connection layer of this repository.

Server side: the WebSocketServer class in src/server/config/db.js
(connection handshake, registry of authenticated clients, sendToUser,
broadcast, per-channel timers).

Client side: the WebSocketProvider. The repository carries two copies of
it: src/client/src/contexts/WebSocketContext.jsx (a truncated copy, but
the one whose message handler sets CONNECTED on CONNECTION_ESTABLISHED
and whose processMessageQueue does head-requeue with backoff), and the
complete copy embedded in src/unnamed/part_006 (lines 385-1123). The
namespaces WSCtx and WSClient below embed the respective copies.
-/

namespace WSServer

/-- Constant from db.js line 44: maximum message size in bytes. -/
def MAX_MESSAGE_SIZE : Nat := 1024 * 1024

/-- Constant from db.js line 45: server side ping interval, ms. -/
def PING_INTERVAL : Nat := 30000

/-- Constant from db.js line 46: the connection timeout, ms. The source
comment next to it says it must be greater than PING_INTERVAL. -/
def CONNECTION_TIMEOUT : Nat := 45000

/-- The client info record stored in the clients Map at registration,
db.js line 126. -/
structure ClientInfo where
  userId : String
  connectionId : String
  ip : String
deriving DecidableEq, Repr

/-- JavaScript runtime values relevant to the registry: strings, object
references (identified by an allocation id), and undefined. -/
inductive JSVal where
  | str : String → JSVal
  | obj : Nat → JSVal
  | undef : JSVal
deriving DecidableEq, Repr

/-- Whether a JS value is an object reference. -/
def JSVal.isObj : JSVal → Bool
  | .obj _ => true
  | _ => false

/-- JavaScript strict equality on these values: strings compare by
content, object references by identity, and values of different kinds
are never strictly equal. In particular an object is never strictly
equal to a string. -/
def jsStrictEq : JSVal → JSVal → Bool
  | .str a, .str b => a == b
  | .obj a, .obj b => a == b
  | .undef, .undef => true
  | _, _ => false

/-- One websocket as the server sees it: its identity and whether its
readyState is OPEN. -/
structure Conn where
  wsId : Nat
  openState : Bool
deriving DecidableEq, Repr

/-- Server registry state. conns models wss.clients; clients models the
clients Map of db.js line 66, whose values are references to the
client-info objects allocated at registration; heap resolves each
object reference to its fields. -/
structure Registry where
  conns : List Conn
  clients : List (Nat × JSVal)
  heap : List (Nat × ClientInfo)
deriving DecidableEq, Repr

/-- Lookup in an association list, modelling Map.prototype.get. -/
def alookup {α : Type} (l : List (Nat × α)) (k : Nat) : Option α :=
  (l.find? (fun kv => kv.1 == k)).map (fun kv => kv.2)

/-- The empty registry. -/
def Registry.empty : Registry := ⟨[], [], []⟩

/-- A websocket joining wss.clients at transport connect. -/
def Registry.addConn (r : Registry) (c : Conn) : Registry :=
  { r with conns := r.conns ++ [c] }

/-- Registration as done by the connection handler on successful
authentication, db.js line 126: the clients Map maps the websocket to a
freshly allocated object with fields userId, connectionId, ip. -/
def Registry.registerClient (r : Registry) (wsId : Nat) (info : ClientInfo)
    (ref : Nat) : Registry :=
  { r with clients := (wsId, JSVal.obj ref) :: r.clients,
           heap := (ref, info) :: r.heap }

/-- Every value stored in the clients Map is an object reference, which
is what registerClient guarantees. -/
def Registry.wfB (r : Registry) : Bool :=
  r.clients.all (fun kv => kv.2.isObj)

/-- sendToUser from db.js lines 349-359: iterate wss.clients and
transmit on a channel exactly when its readyState is OPEN and the test
this.clients.get(client) === userId holds, where the left side is the
stored client-info object (or undefined) and the right side is the
userId string. Returns the list of websocket ids transmitted on. -/
def sendToUser (r : Registry) (userId : String) : List Nat :=
  (r.conns.filter (fun c =>
    c.openState && jsStrictEq ((alookup r.clients c.wsId).getD .undef)
      (.str userId))).map (fun c => c.wsId)

/-- The userId registered for a websocket, read through the optional
chain this.clients.get(client)?.userId as broadcast does, db.js
lines 290 and 295. -/
def registeredUserId (r : Registry) (wsId : Nat) : Option String :=
  match alookup r.clients wsId with
  | some (JSVal.obj ref) => (alookup r.heap ref).map (fun i => i.userId)
  | _ => none

/-- broadcast from db.js lines 283-299: restrict to channels whose
registered userId is in includeOnly when given, then send to every open
channel whose registered userId is not in exclude. -/
def broadcast (r : Registry) (exclude : List String)
    (includeOnly : Option (List String)) : List Nat :=
  let pool : List Conn := match includeOnly with
    | some incl => r.conns.filter (fun (c : Conn) =>
        match registeredUserId r c.wsId with
        | some u => incl.contains u
        | none => false)
    | none => r.conns
  (pool.filter (fun (c : Conn) =>
    c.openState && !(match registeredUserId r c.wsId with
      | some u => exclude.contains u
      | none => false))).map (fun c => c.wsId)

/-- Message kinds the server sends during and after the handshake. -/
inductive ServerMsgType where
  | connectionEstablished
  | pong
  | error
deriving DecidableEq, Repr

/-- Outcome of the connection handler for one incoming transport
connection. -/
structure HandshakeOutcome where
  closeCode : Option Nat
  registeredUser : Option String
  sent : List ServerMsgType
  timeoutCleared : Bool
  pingStarted : Bool
deriving DecidableEq, Repr

/-- The connection handler of setupEventHandlers, db.js lines 80-145,
from transport connect to the end of the handshake. urlOk models
whether the URL constructor call on req.url succeeds; token is the
token query parameter; verify models jwt.verify, returning the decoded
user id, or none on an invalid or expired signature. The handler arms a
45s connection timeout, then: a failed URL parse or a missing token is
caught and answered with close(4002); a failing jwt.verify is answered
with close(4003); on success the timeout is cleared, the client is
registered, a ping interval starts and CONNECTION_ESTABLISHED is sent. -/
def handleConnection (urlOk : Bool) (token : Option String)
    (verify : String → Option String) : HandshakeOutcome :=
  match urlOk, token with
  | false, _ =>
      { closeCode := some 4002, registeredUser := none, sent := [],
        timeoutCleared := false, pingStarted := false }
  | true, none =>
      { closeCode := some 4002, registeredUser := none, sent := [],
        timeoutCleared := false, pingStarted := false }
  | true, some t =>
      match verify t with
      | none =>
          { closeCode := some 4003, registeredUser := none, sent := [],
            timeoutCleared := false, pingStarted := false }
      | some uid =>
          { closeCode := none, registeredUser := some uid,
            sent := [.connectionEstablished],
            timeoutCleared := true, pingStarted := true }

/-- Per-channel server state after a successful handshake: whether the
channel is open and registered, whether the initial 45s connection
timeout is still armed, and any close code the server has issued. -/
structure Session where
  openState : Bool
  registered : Bool
  timeoutArmed : Bool
  closeCode : Option Nat
deriving DecidableEq, Repr

/-- Events a server-side channel experiences after the handshake.
silentFor is the passage of the given milliseconds with no inbound
traffic, pingTick is the 30s interval that calls ws.ping, pongReceived
and messageReceived are inbound traffic. -/
inductive SessionEvent where
  | silentFor (ms : Nat)
  | pingTick
  | pongReceived
  | messageReceived
deriving DecidableEq, Repr

/-- The server reaction to each post-handshake event, read off db.js:
the ping interval (lines 129-134) only sends a protocol ping; the pong
handler (lines 175-178) does nothing; handleMessage (lines 187-226)
dispatches without touching any timer; and the only timer that can
close with 4008 is the connection timeout of lines 86-91, which fires
during silence only while it is still armed - and the handshake cleared
it at lines 121-123. Nothing ever re-arms it. -/
def sessionStep (s : Session) (e : SessionEvent) : Session :=
  match e with
  | .silentFor ms =>
      if s.timeoutArmed && CONNECTION_TIMEOUT ≤ ms && s.openState then
        { s with openState := false, registered := false,
                 timeoutArmed := false, closeCode := some 4008 }
      else s
  | .pingTick => s
  | .pongReceived => s
  | .messageReceived => s

/-- The per-channel state right after a successful handshake: open,
registered, connection timeout cleared (db.js lines 121-123), no close
code issued. -/
def postHandshake : Session :=
  { openState := true, registered := true, timeoutArmed := false,
    closeCode := none }

/-- A sample client-info record for one authenticated user. -/
def demoInfo : ClientInfo :=
  { userId := "u1", connectionId := "c1", ip := "127.0.0.1" }

/-- A registry holding one open, authenticated, registered channel:
websocket 1 is open and the connection handler registered it under the
identity u1 via a client-info object at heap reference 100. -/
def demoRegistry : Registry :=
  (Registry.empty.addConn ⟨1, true⟩).registerClient 1 demoInfo 100

end WSServer

namespace WSClient

/-- WS_CONFIG of part_006 lines 402-427 (identical in
WebSocketContext.jsx lines 18-43). -/
def MAX_RECONNECT_ATTEMPTS : Nat := 10

/-- Base reconnect delay from WS_CONFIG, ms. -/
def RECONNECT_BASE_DELAY : Nat := 1000

/-- Maximum reconnect delay from WS_CONFIG, ms. -/
def MAX_RECONNECT_DELAY : Nat := 30000

/-- Heartbeat interval from WS_CONFIG, ms. -/
def HEARTBEAT_INTERVAL : Nat := 15000

/-- Pong wait from WS_CONFIG, ms. -/
def PONG_TIMEOUT : Nat := 10000

/-- Maximum queued messages from WS_CONFIG. -/
def MAX_QUEUE_SIZE : Nat := 100

/-- An entry of the client message queue as pushed by the part_006
sendMessage, lines 726-731: a fresh uuid, the original message object,
the enqueue timestamp, and retryCount zero. -/
structure QueuedEntry where
  id : String
  message : String
  timestamp : Nat
  retryCount : Nat
deriving DecidableEq, Repr

/-- A sample queued entry used for concrete instantiations. -/
def demoEntry : QueuedEntry :=
  { id := "i", message := "m", timestamp := 0, retryCount := 0 }

/-- The disconnected branch of the part_006 sendMessage, lines 722-741,
with queueIfDisconnected left at its default true: if the queue length
is below MAX_QUEUE_SIZE the message is appended to the tail and true is
returned, otherwise the message is dropped, false is returned, and the
queue is left untouched. -/
def enqueueMessage (queue : List QueuedEntry) (freshId msg : String)
    (now : Nat) : List QueuedEntry × Bool :=
  if queue.length < MAX_QUEUE_SIZE then
    (queue ++ [{ id := freshId, message := msg, timestamp := now,
                 retryCount := 0 }], true)
  else
    (queue, false)

/-- Folding enqueueMessage over a list of send attempts while
disconnected, counting accepted and rejected messages. -/
def enqueueAll (queue : List QueuedEntry) (acc rej : Nat)
    (msgs : List (String × String × Nat)) : List QueuedEntry × Nat × Nat :=
  match msgs with
  | [] => (queue, acc, rej)
  | (fid, m, t) :: rest =>
      let p := enqueueMessage queue fid m t
      if p.2 then enqueueAll p.1 (acc + 1) rej rest
      else enqueueAll p.1 acc (rej + 1) rest

/-- The connected branch of the part_006 sendMessage, lines 743-751:
the object literal spreads the caller message first and then writes the
id and timestamp keys, so the transmitted frame carries a freshly
generated uuid as its id, overwriting any id the caller supplied. -/
structure WireMsg where
  type : String
  id : Option String
deriving DecidableEq, Repr

/-- The frame actually placed on the wire by the connected branch of
sendMessage for a given caller message: same fields, id overwritten
with the fresh uuid. -/
def stampOutgoing (freshId : String) (m : WireMsg) : WireMsg :=
  { m with id := some freshId }

/-- The PING case of the part_006 onmessage handler, lines 872-876: the
client answers an inbound PING by calling sendMessage with an object of
type PONG carrying the PING id; stampOutgoing gives the frame that is
then transmitted. -/
def pongReplySent (freshId : String) (pingId : Option String) : WireMsg :=
  stampOutgoing freshId { type := "PONG", id := pingId }

/-- A pending-ping entry as the JS object stored by sendPing in
part_006 lines 1017-1023, with option-valued fields recording which
properties the object literal actually has: a timestamp and a resolve
closure. There is no reject key, so reading the reject property yields
undefined, modelled as none. -/
structure PingEntry where
  timestamp : Option Nat
  resolve : Option Unit
  reject : Option Unit
deriving DecidableEq, Repr

/-- The entry sendPing stores for a probe sent at the given time. -/
def sendPingEntry (now : Nat) : PingEntry :=
  { timestamp := some now, resolve := some (), reject := none }

/-- Runtime errors of the embedded JS fragments. -/
inductive JSError where
  | typeError
deriving DecidableEq, Repr

/-- The pending-probe clearing loop of the part_006 cleanupSocket,
lines 598-602: for each entry of the pendingPings Map it destructures
the reject property and calls it with a connection-closed error, then
deletes the entry. Calling a value that is undefined throws a
TypeError, which aborts the loop and propagates out of cleanupSocket
(the loop is not inside the try block). Returns the ids that were
rejected, or the error that escaped. -/
def clearPendingPings : List (String × PingEntry) →
    Except JSError (List String)
  | [] => .ok []
  | (id, e) :: rest =>
      match e.reject with
      | none => .error .typeError
      | some _ => (clearPendingPings rest).map (fun ids => id :: ids)

/-- A pending liveness probe of the timed heartbeat model: its id and
the absolute time at which its pong timeout is scheduled to fire. -/
structure Probe where
  pid : Nat
  deadline : Nat
deriving DecidableEq, Repr

/-- State of the timed heartbeat model: current time, the absolute time
of the next setInterval tick, and the pending probes. -/
structure HbState where
  now : Nat
  nextTick : Nat
  pending : List Probe
deriving DecidableEq, Repr

/-- Timed semantics of the part_006 startHeartbeat (lines 1043-1066)
and sendPing (lines 1002-1038) on one open socket. The setInterval of
startHeartbeat fires a tick exactly every H milliseconds; each tick
runs sendPing, which stores exactly one pending probe whose setTimeout
is due T milliseconds later. A matching PONG resolves a probe and
clears its timeout (pong); an unanswered probe is removed when its
timeout fires at its deadline (timeout). Time advances one millisecond
at a time and cannot pass a due timer: a tick due now must fire before
time moves on, and a probe whose deadline is now must be resolved or
timed out first. This is the single-threaded event-loop guarantee that
a timer callback runs when it is due. -/
inductive HbStep (H T : Nat) : HbState → HbState → Prop
  | tick (s : HbState) (id : Nat) (h : s.now = s.nextTick) :
      HbStep H T s { now := s.now, nextTick := s.now + H,
                     pending := s.pending ++ [⟨id, s.now + T⟩] }
  | pong (s : HbState) (id : Nat) :
      HbStep H T s { s with pending := s.pending.filter (fun p => p.pid ≠ id) }
  | timeout (s : HbState) (p : Probe) (hp : p ∈ s.pending)
      (hd : p.deadline = s.now) :
      HbStep H T s { s with pending := s.pending.filter (fun q => q.pid ≠ p.pid) }
  | advance (s : HbState) (h1 : s.now < s.nextTick)
      (h2 : ∀ p ∈ s.pending, s.now < p.deadline) :
      HbStep H T s { s with now := s.now + 1 }

/-- The heartbeat state right after startHeartbeat is called at the
given time: no pending probe, first tick one interval later. -/
def hbInit (H start : Nat) : HbState :=
  { now := start, nextTick := start + H, pending := [] }

/-- States reachable from a given heartbeat state. -/
inductive HbReach (H T : Nat) (init : HbState) : HbState → Prop
  | refl : HbReach H T init init
  | step {s s' : HbState} : HbReach H T init s → HbStep H T s s' →
      HbReach H T init s'

/-- The inductive invariant of the heartbeat model: at most one pending
probe, time does not pass the next tick, and every pending probe is
live (its deadline has not passed) and resolves strictly before the
next tick. -/
def HbInv (s : HbState) : Prop :=
  s.pending.length ≤ 1 ∧ s.now ≤ s.nextTick ∧
    ∀ p ∈ s.pending, s.now ≤ p.deadline ∧ p.deadline < s.nextTick

/-- Delay computation of the part_006 handleReconnect, lines 676-682,
over exact rationals: the base is reconnectBackoff (which stays at
RECONNECT_BASE_DELAY, nothing in part_006 ever assigns it) times 1.5 to
the power of the attempt counter, capped at MAX_RECONNECT_DELAY. -/
def backoffBase (attempts : Nat) : ℚ :=
  min ((RECONNECT_BASE_DELAY : ℚ) * (3 / 2) ^ attempts)
    ((MAX_RECONNECT_DELAY : ℚ))

/-- The scheduled reconnect delay: Math.floor of the capped base plus
the jitter Math.random() * 1000. -/
def reconnectDelay (attempts : Nat) (jitter : ℚ) : ℤ :=
  ⌊backoffBase attempts + jitter⌋

/-- The reconnection controller state touched by handleReconnect. -/
structure ReconnectCtl where
  attempts : Nat
deriving DecidableEq, Repr

/-- One run of the part_006 handleReconnect below the max-attempts
guard, lines 676-699: compute the delay from the current attempt
counter, then increment the counter and schedule connect after the
delay. Returns the new state and the scheduled delay. -/
def handleReconnectStep (c : ReconnectCtl) (jitter : ℚ) :
    ReconnectCtl × ℤ :=
  ({ attempts := c.attempts + 1 }, reconnectDelay c.attempts jitter)

end WSClient

namespace WSCtx

/-- Base reconnect delay from WS_CONFIG of WebSocketContext.jsx
line 22, ms. -/
def RECONNECT_BASE_DELAY : Nat := 1000

/-- Connection status values of WebSocketContext.jsx lines 46-52. -/
inductive WSStatus where
  | connecting
  | connected
  | disconnected
  | reconnecting
  | error
deriving DecidableEq, Repr

/-- The WebSocketContext.jsx provider state touched by the transport
open handler and by the CONNECTION_ESTABLISHED message case:
connection status, reconnect attempt counter, reconnect backoff,
whether the heartbeat interval is running, whether the one-second timer
that will call setupHeartbeat has been armed, and whether
processMessageQueue has been invoked to drain the queue. -/
structure CtxState where
  status : WSStatus
  reconnectAttempts : Nat
  reconnectBackoff : Nat
  heartbeatStarted : Bool
  heartbeatSetupScheduled : Bool
  drainInvoked : Bool
deriving DecidableEq, Repr

/-- The onopen handler of WebSocketContext.jsx, lines 299-310: it does
not change the connection status (its comment says the status is set
when CONNECTION_ESTABLISHED is received) and it arms a one-second
setTimeout that will call setupHeartbeat. -/
def handleOpen (s : CtxState) : CtxState :=
  { s with heartbeatSetupScheduled := true }

/-- The timer armed by handleOpen firing: setupHeartbeat runs and the
heartbeat interval starts, regardless of the connection status. -/
def heartbeatTimerFires (s : CtxState) : CtxState :=
  { s with heartbeatStarted := true }

/-- The CONNECTION_ESTABLISHED case of the onmessage handler of
WebSocketContext.jsx, lines 336-342: set the status to CONNECTED,
reset the reconnect attempt counter to zero and the backoff to the
base delay, and invoke processMessageQueue. It does not touch the
heartbeat. -/
def handleConnectionEstablished (s : CtxState) : CtxState :=
  { s with status := .connected, reconnectAttempts := 0,
           reconnectBackoff := RECONNECT_BASE_DELAY,
           drainInvoked := true }

/-- A freshly connecting provider whose transport has not yet opened:
this is the state in which connect was just called after some failed
attempts. -/
def connectingState : CtxState :=
  { status := .connecting, reconnectAttempts := 3,
    reconnectBackoff := 1000, heartbeatStarted := false,
    heartbeatSetupScheduled := false, drainInvoked := false }

/-- An entry of the message queue as the destructuring of
processMessageQueue (line 217 of WebSocketContext.jsx) views it: the
message field, the entry id, and the retry count (defaulted to zero). -/
structure DrainEntry where
  message : String
  id : String
  retryCount : Nat
deriving DecidableEq, Repr

/-- An entry after the retry-count increment applied when its
transmission failed, line 253. -/
def bump (e : DrainEntry) : DrainEntry :=
  { e with retryCount := e.retryCount + 1 }

/-- Whether an entry has exhausted its attempts: the guard
retryCount greater or equal 3 of line 220. -/
def exhausted (e : DrainEntry) : Bool :=
  3 ≤ e.retryCount

/-- The for loop of processMessageQueue, WebSocketContext.jsx
lines 217-255, over one batch, parameterized by which sends succeed.
Returns the number of entries sent, the failed entries in batch order
with retry counts incremented, and the ids reported as permanently
failed. An entry at three or more retries is reported and skipped; an
entry whose send succeeds counts as processed; an entry whose send
fails joins the failed list with its retry count incremented. -/
def drainLoop (sendOk : DrainEntry → Bool) :
    List DrainEntry → Nat × List DrainEntry × List String
  | [] => (0, [], [])
  | e :: es =>
      let r := drainLoop sendOk es
      if exhausted e then (r.1, r.2.1, e.id :: r.2.2)
      else if sendOk e then (r.1 + 1, r.2.1, r.2.2)
      else (r.1, bump e :: r.2.1, r.2.2)

/-- Result of one pass of processMessageQueue. -/
structure DrainResult where
  queue : List DrainEntry
  processed : Nat
  reportedFailed : List String
  retryDelay : Option Nat
deriving DecidableEq, Repr

/-- One pass of processMessageQueue, WebSocketContext.jsx
lines 205-267, on an open socket: splice the first ten entries off the
queue, run the loop over them, unshift the failed entries back onto the
head of the remaining queue, and, when there were failures, schedule a
retry of the whole drain after min(1000 * 2 ^ retryCount, 10000)
milliseconds computed from the first failed entry. -/
def processQueuePass (sendOk : DrainEntry → Bool)
    (queue : List DrainEntry) : DrainResult :=
  let batch := queue.take 10
  let r := drainLoop sendOk batch
  { queue := r.2.1 ++ queue.drop 10
    processed := r.1
    reportedFailed := r.2.2
    retryDelay := match r.2.1 with
      | [] => none
      | f :: _ => some (min (1000 * 2 ^ f.retryCount) 10000) }

end WSCtx

namespace WSServer

/-- A value found through alookup is the value of some association pair
in the list. -/
theorem alookup_mem {α : Type} {l : List (Nat × α)} {k : Nat} {v : α}
    (h : alookup l k = some v) : ∃ kv ∈ l, kv.2 = v := by
  unfold alookup at h
  cases hf : l.find? (fun kv => kv.1 == k) with
  | none => simp [hf] at h
  | some kv =>
      simp [hf] at h
      exact ⟨kv, List.mem_of_find?_eq_some hf, h⟩

/-- In any registry whose clients Map holds only object references,
which registration guarantees, the strict-equality test of sendToUser
compares an object (or undefined) with a string and is therefore false
on every channel. -/
theorem sendToUser_empty_of_wf (r : Registry) (hr : r.wfB = true)
    (uid : String) : sendToUser r uid = [] := by
  unfold sendToUser
  have hnil : r.conns.filter (fun c =>
      c.openState && jsStrictEq ((alookup r.clients c.wsId).getD .undef)
        (.str uid)) = [] := by
    apply List.filter_eq_nil_iff.mpr
    intro c _
    cases hl : alookup r.clients c.wsId with
    | none => simp [hl, jsStrictEq]
    | some v =>
        obtain ⟨kv, hkv, hv⟩ := alookup_mem hl
        have hobj : kv.2.isObj = true := by
          have := List.all_eq_true.mp hr
          exact this kv hkv
        rw [hv] at hobj
        cases v with
        | obj n => simp [hl, jsStrictEq]
        | str s => simp [JSVal.isObj] at hobj
        | undef => simp [JSVal.isObj] at hobj
  rw [hnil]
  rfl

/-- C3: the claim says sendToUser transmits on every open channel
registered under the given identity, so with at least one such channel
at least one transmission occurs. The code compares the stored
client-info object itself to the identity string with strict equality,
which never holds, so sendToUser transmits on no channel at all: here a
registry holds one open channel registered under u1, yet
sendToUser u1 sends nothing. -/
theorem C3_sendToUser_transmits_nothing :
    (demoRegistry.conns.any (fun c =>
      c.openState && (registeredUserId demoRegistry c.wsId == some "u1"))) = true ∧
    demoRegistry.wfB = true ∧
    sendToUser demoRegistry "u1" = [] := by
  refine ⟨by decide, by decide, ?_⟩
  exact sendToUser_empty_of_wf demoRegistry (by decide) "u1"

/-- C2: the handshake rejects a present-but-invalid token before any
CONNECTION_ESTABLISHED is sent and without registering the channel,
but the close code it uses is 4003, not 4002: at a concrete expired
token the channel closes with 4003. -/
theorem C2_close_code_counterexample :
    ¬ ((handleConnection true (some "expired-token")
        (fun _ => none)).closeCode = some 4002) := by
  decide

/-- C2 amended: for every transport connect whose token is present but
fails verification, the server closes the channel with close code 4003
before sending any CONNECTION_ESTABLISHED message and without
registering the channel. -/
theorem C2_invalid_token_rejected (t : String)
    (verify : String → Option String) (h : verify t = none) :
    (handleConnection true (some t) verify).closeCode = some 4003 ∧
    (handleConnection true (some t) verify).sent = [] ∧
    (handleConnection true (some t) verify).registeredUser = none := by
  simp [handleConnection, h]

/-- Witness instantiating the amended C2 theorem at a concrete failing
token. -/
theorem C2_invalid_token_rejected_witness :
    ((fun (_ : String) => (none : Option String)) "expired-token" = none) ∧
    ((handleConnection true (some "expired-token")
        (fun _ => none)).closeCode = some 4003 ∧
      (handleConnection true (some "expired-token")
        (fun _ => none)).sent = [] ∧
      (handleConnection true (some "expired-token")
        (fun _ => none)).registeredUser = none) :=
  ⟨rfl, C2_invalid_token_rejected "expired-token" (fun _ => none) rfl⟩

/-- Every post-handshake event leaves the session unchanged, because
the only close-capable timer was cleared during the handshake and the
pong and message handlers touch no timer. -/
theorem sessionStep_fixed (e : SessionEvent) :
    sessionStep postHandshake e = postHandshake := by
  cases e <;> simp [sessionStep, postHandshake]

/-- C1: the claim says an authenticated, registered channel that
receives no inbound traffic for longer than the inactivity timeout is
closed with 4008 and removed from the registry. In the code the 45s
connection timeout is cleared at authentication and never re-armed,
and the pong and message handlers touch no timer, so after any
sequence of post-handshake events, including arbitrarily long silence,
the channel remains open and registered with no close code issued. -/
theorem C1_silent_channel_never_closed (evs : List SessionEvent) :
    (evs.foldl sessionStep postHandshake).closeCode = none ∧
    (evs.foldl sessionStep postHandshake).registered = true ∧
    (evs.foldl sessionStep postHandshake).openState = true := by
  have h : evs.foldl sessionStep postHandshake = postHandshake := by
    induction evs with
    | nil => rfl
    | cons e es ih => rw [List.foldl_cons, sessionStep_fixed]; exact ih
  rw [h]
  exact ⟨rfl, rfl, rfl⟩

end WSServer

namespace WSCtx

/-- C4 counterexample: in WebSocketContext.jsx the transition into
CONNECTED caused by receiving CONNECTION_ESTABLISHED does not start
the Heartbeat Monitor: starting from a freshly connecting provider
whose transport just opened, the state after the transition is
CONNECTED with the heartbeat still not started, contradicting the
claim that the transition starts the Heartbeat Monitor. -/
theorem C4_heartbeat_not_started_at_transition :
    (handleConnectionEstablished (handleOpen connectingState)).status =
      WSStatus.connected ∧
    (handleConnectionEstablished (handleOpen connectingState)).heartbeatStarted =
      false := by
  decide

/-- C4 amended: the client enters CONNECTED upon receiving the
CONNECTION_ESTABLISHED message (the transport open handler leaves the
status unchanged), and at that transition resets the reconnect-attempt
counter and the backoff to their base values and drains the message
queue; the Heartbeat Monitor is instead started by a one-second timer
armed in the transport open handler, so the transition leaves the
heartbeat exactly as it was. -/
theorem C4_connection_established_transition (s : CtxState) :
    (handleConnectionEstablished s).status = WSStatus.connected ∧
    (handleConnectionEstablished s).reconnectAttempts = 0 ∧
    (handleConnectionEstablished s).reconnectBackoff = RECONNECT_BASE_DELAY ∧
    (handleConnectionEstablished s).drainInvoked = true ∧
    (handleConnectionEstablished s).heartbeatStarted = s.heartbeatStarted ∧
    (handleOpen s).status = s.status ∧
    (handleOpen s).heartbeatSetupScheduled = true := by
  simp [handleConnectionEstablished, handleOpen]

/-- The failed entries produced by the drain loop are exactly the batch
entries that are not exhausted and whose send fails, in batch order,
each with its retry count incremented. -/
theorem drainLoop_failed (sendOk : DrainEntry → Bool) (l : List DrainEntry) :
    (drainLoop sendOk l).2.1 =
      (l.filter (fun e => !exhausted e && !sendOk e)).map bump := by
  induction l with
  | nil => rfl
  | cons e es ih =>
      cases h1 : exhausted e <;> cases h2 : sendOk e <;>
        simp [drainLoop, h1, h2, ih]

/-- The ids reported as permanently failed by the drain loop are
exactly the ids of the exhausted batch entries, in batch order. -/
theorem drainLoop_reported (sendOk : DrainEntry → Bool) (l : List DrainEntry) :
    (drainLoop sendOk l).2.2 = (l.filter exhausted).map (fun e => e.id) := by
  induction l with
  | nil => rfl
  | cons e es ih =>
      cases h1 : exhausted e <;> cases h2 : sendOk e <;>
        simp [drainLoop, h1, h2, ih]

/-- C5: in one pass of processMessageQueue over the spliced batch,
every entry whose transmission fails is re-enqueued at the head of the
queue in batch order with its retry count incremented; every entry
whose retry count has reached the maximum is dropped and its id
reported as permanently failed; a retry of the whole drain is
scheduled exactly when some transmission failed; and no batch entry is
dropped silently: each one is either sent, re-enqueued, or reported. -/
theorem C5_drain_requeue_and_report (sendOk : DrainEntry → Bool)
    (queue : List DrainEntry) :
    (processQueuePass sendOk queue).queue =
      ((queue.take 10).filter (fun e => !exhausted e && !sendOk e)).map bump ++
        queue.drop 10 ∧
    (processQueuePass sendOk queue).reportedFailed =
      ((queue.take 10).filter exhausted).map (fun e => e.id) ∧
    ((processQueuePass sendOk queue).retryDelay.isSome ↔
      (queue.take 10).filter (fun e => !exhausted e && !sendOk e) ≠ []) ∧
    (∀ e ∈ queue.take 10,
      (exhausted e = false ∧ sendOk e = true) ∨
      bump e ∈ (processQueuePass sendOk queue).queue ∨
      e.id ∈ (processQueuePass sendOk queue).reportedFailed) := by
  refine ⟨?_, ?_, ?_, ?_⟩
  · simp [processQueuePass, drainLoop_failed]
  · simp [processQueuePass, drainLoop_reported]
  · simp only [processQueuePass, drainLoop_failed]
    cases hF : (queue.take 10).filter (fun e => !exhausted e && !sendOk e) with
    | nil => simp
    | cons f fs => simp
  · intro e he
    cases h1 : exhausted e with
    | true =>
        right; right
        simp only [processQueuePass, drainLoop_reported]
        exact List.mem_map.mpr ⟨e, List.mem_filter.mpr ⟨he, h1⟩, rfl⟩
    | false =>
        cases h2 : sendOk e with
        | true => left; exact ⟨rfl, rfl⟩
        | false =>
            right; left
            simp only [processQueuePass, drainLoop_failed]
            apply List.mem_append_left
            exact List.mem_map.mpr
              ⟨e, List.mem_filter.mpr ⟨he, by simp [h1, h2]⟩, rfl⟩

end WSCtx

namespace WSClient

/-- Unfolding one step of enqueueAll: a message is accepted exactly
when the queue is below capacity. -/
theorem enqueueAll_cons (queue : List QueuedEntry) (acc rej : Nat)
    (fid m : String) (t : Nat) (rest : List (String × String × Nat)) :
    enqueueAll queue acc rej ((fid, m, t) :: rest) =
      if queue.length < MAX_QUEUE_SIZE then
        enqueueAll (queue ++ [⟨fid, m, t, 0⟩]) (acc + 1) rej rest
      else
        enqueueAll queue acc (rej + 1) rest := by
  by_cases h : queue.length < MAX_QUEUE_SIZE <;>
    simp [enqueueAll, enqueueMessage, h]

/-- Folding enqueueMessage over a list of send attempts accepts as many
messages as fit into the remaining capacity and rejects the rest. -/
theorem enqueueAll_counts (msgs : List (String × String × Nat)) :
    ∀ (queue : List QueuedEntry) (acc rej : Nat),
      (enqueueAll queue acc rej msgs).2.1 =
        acc + min msgs.length (MAX_QUEUE_SIZE - queue.length) ∧
      (enqueueAll queue acc rej msgs).2.2 =
        rej + (msgs.length - min msgs.length (MAX_QUEUE_SIZE - queue.length)) := by
  induction msgs with
  | nil => intro queue acc rej; simp [enqueueAll]
  | cons hd rest ih =>
      intro queue acc rej
      obtain ⟨fid, m, t⟩ := hd
      rw [enqueueAll_cons]
      by_cases h : queue.length < MAX_QUEUE_SIZE
      · rw [if_pos h]
        have hrec := ih (queue ++ [⟨fid, m, t, 0⟩]) (acc + 1) rej
        rw [hrec.1, hrec.2]
        simp only [List.length_append, List.length_cons, List.length_nil,
          MAX_QUEUE_SIZE] at h ⊢
        constructor <;> omega
      · rw [if_neg h]
        have hrec := ih queue acc (rej + 1)
        rw [hrec.1, hrec.2]
        simp only [List.length_cons, MAX_QUEUE_SIZE] at h ⊢
        constructor <;> omega

end WSClient

namespace WSClient

/-- C6: enqueuing against a queue already at capacity while
disconnected returns false synchronously and leaves the queue
untouched, and enqueuing capacity plus one messages starting from an
empty queue accepts exactly capacity of them and rejects exactly one. -/
theorem C6_queue_capacity_enforced (queue : List QueuedEntry)
    (fid m : String) (t : Nat) (msgs : List (String × String × Nat))
    (hfull : queue.length = MAX_QUEUE_SIZE)
    (hlen : msgs.length = MAX_QUEUE_SIZE + 1) :
    enqueueMessage queue fid m t = (queue, false) ∧
    (enqueueAll [] 0 0 msgs).2.1 = MAX_QUEUE_SIZE ∧
    (enqueueAll [] 0 0 msgs).2.2 = 1 := by
  refine ⟨?_, ?_, ?_⟩
  · unfold enqueueMessage
    rw [if_neg (by omega)]
  · rw [(enqueueAll_counts msgs [] 0 0).1, hlen]
    simp [MAX_QUEUE_SIZE]
  · rw [(enqueueAll_counts msgs [] 0 0).2, hlen]
    simp [MAX_QUEUE_SIZE]

/-- Witness instantiating the C6 theorem at a queue of one hundred
entries and a list of one hundred and one send attempts. -/
theorem C6_queue_capacity_enforced_witness :
    ((List.replicate 100 demoEntry).length = MAX_QUEUE_SIZE ∧
      (List.replicate 101 (("i", "m", 0) : String × String × Nat)).length =
        MAX_QUEUE_SIZE + 1) ∧
    (enqueueMessage (List.replicate 100 demoEntry) "j" "n" 7 =
      (List.replicate 100 demoEntry, false) ∧
    (enqueueAll [] 0 0 (List.replicate 101
        (("i", "m", 0) : String × String × Nat))).2.1 = MAX_QUEUE_SIZE ∧
    (enqueueAll [] 0 0 (List.replicate 101
        (("i", "m", 0) : String × String × Nat))).2.2 = 1) :=
  ⟨⟨by simp [MAX_QUEUE_SIZE], by simp [MAX_QUEUE_SIZE]⟩,
    C6_queue_capacity_enforced _ "j" "n" 7 _
      (by simp [MAX_QUEUE_SIZE]) (by simp [MAX_QUEUE_SIZE])⟩

/-- C7: the claim says disconnect clears every pending liveness probe
by rejecting it as closed-by-disconnect without itself raising. The
entries sendPing stores carry no reject property, so the clearing loop
of cleanupSocket, which disconnect relies on, destructures undefined
and calls it: with any pending probe present the loop throws a
TypeError and rejects nothing. -/
theorem C7_clearing_pending_probes_throws (id : String) (t : Nat)
    (rest : List (String × PingEntry)) :
    (sendPingEntry t).reject = none ∧
    clearPendingPings ((id, sendPingEntry t) :: rest) =
      Except.error JSError.typeError := by
  exact ⟨rfl, rfl⟩

end WSClient

namespace WSClient

/-- The heartbeat invariant holds in the state where startHeartbeat was
just called. -/
theorem hbInv_init (H start : Nat) : HbInv (hbInit H start) := by
  refine ⟨by simp [hbInit], by simp [hbInit], ?_⟩
  intro p hp
  simp [hbInit] at hp

/-- The heartbeat invariant is preserved by every step of the timed
heartbeat semantics, provided the pong timeout is shorter than the
heartbeat interval. -/
theorem hbInv_step {H T : Nat} (hTH : T < H) {s s' : HbState}
    (hs : HbInv s) (st : HbStep H T s s') : HbInv s' := by
  obtain ⟨hlen, hnt, hpr⟩ := hs
  cases st with
  | tick pid hEq =>
      have hemp : s.pending = [] := by
        apply List.eq_nil_iff_forall_not_mem.mpr
        intro p hp
        have ha := (hpr p hp).1
        have hb := (hpr p hp).2
        omega
      refine ⟨?_, ?_, ?_⟩
      · simp [hemp]
      · simp
      · intro p hp
        simp [hemp] at hp
        subst hp
        simp
        omega
  | pong pid =>
      refine ⟨le_trans (List.length_filter_le _ _) hlen, hnt, ?_⟩
      intro p hp
      exact hpr p (List.mem_of_mem_filter hp)
  | timeout p hp hd =>
      refine ⟨le_trans (List.length_filter_le _ _) hlen, hnt, ?_⟩
      intro q hq
      exact hpr q (List.mem_of_mem_filter hq)
  | advance hlt hlive =>
      refine ⟨hlen, ?_, ?_⟩
      · simp
        omega
      · intro p hp
        have ha := hlive p hp
        have hb := (hpr p hp).2
        simp
        omega

/-- Every state reachable from a fresh heartbeat start satisfies the
invariant, provided the pong timeout is shorter than the heartbeat
interval. -/
theorem hbReach_inv {H T start : Nat} (hTH : T < H) {s : HbState}
    (h : HbReach H T (hbInit H start) s) : HbInv s := by
  induction h with
  | refl => exact hbInv_init H start
  | step hr hst ih => exact hbInv_step hTH ih hst

/-- C8: with the configured values, the pong timeout of ten seconds is
shorter than the heartbeat interval of fifteen seconds, and in every
state of the heartbeat mechanism reachable from a fresh start the set
of pending liveness probes has size zero or one: each tick records one
probe and its acknowledgment or its timeout removes it strictly before
the next tick. -/
theorem C8_at_most_one_pending_probe (start : Nat) (s : HbState)
    (h : HbReach HEARTBEAT_INTERVAL PONG_TIMEOUT
      (hbInit HEARTBEAT_INTERVAL start) s) :
    s.pending.length ≤ 1 ∧ PONG_TIMEOUT < HEARTBEAT_INTERVAL :=
  ⟨(hbReach_inv (by decide) h).1, by decide⟩

/-- Witness instantiating the C8 theorem at the freshly started
heartbeat state. -/
theorem C8_at_most_one_pending_probe_witness :
    HbReach HEARTBEAT_INTERVAL PONG_TIMEOUT
      (hbInit HEARTBEAT_INTERVAL 0) (hbInit HEARTBEAT_INTERVAL 0) ∧
    ((hbInit HEARTBEAT_INTERVAL 0).pending.length ≤ 1 ∧
      PONG_TIMEOUT < HEARTBEAT_INTERVAL) :=
  ⟨HbReach.refl, C8_at_most_one_pending_probe 0 _ HbReach.refl⟩

end WSClient

namespace WSClient

/-- The capped exponential base never exceeds the maximum reconnect
delay. -/
theorem backoffBase_le_max (n : Nat) :
    backoffBase n ≤ (MAX_RECONNECT_DELAY : ℚ) :=
  min_le_right _ _

/-- The capped exponential base is monotone in the attempt counter. -/
theorem backoffBase_mono {n m : Nat} (hnm : n ≤ m) :
    backoffBase n ≤ backoffBase m := by
  unfold backoffBase
  apply min_le_min _ le_rfl
  apply mul_le_mul_of_nonneg_left _ (by norm_num)
  exact pow_le_pow_right₀ (by norm_num) hnm

/-- C9: the part_006 handleReconnect schedules the next connect after
floor of min(base times 1.5 to the attempt, max delay) plus jitter and
increments the attempt counter; for jitter in the interval from zero
up to but excluding the maximum jitter of 1000 ms, every scheduled
delay is at most max delay plus max jitter, and the jitter-free part
of the delay, hence also the expected delay, is non-decreasing in the
attempt number until the cap is reached. -/
theorem C9_backoff_bound_and_monotone (c : ReconnectCtl) (n m : Nat)
    (jitter : ℚ) (h0 : 0 ≤ jitter) (h1 : jitter < 1000) (hnm : n ≤ m) :
    (handleReconnectStep c jitter).1.attempts = c.attempts + 1 ∧
    (handleReconnectStep c jitter).2 = ⌊backoffBase c.attempts + jitter⌋ ∧
    reconnectDelay n jitter ≤ (MAX_RECONNECT_DELAY : ℤ) + 1000 ∧
    backoffBase n ≤ backoffBase m := by
  refine ⟨rfl, rfl, ?_, backoffBase_mono hnm⟩
  have hb : backoffBase n + jitter ≤ ((MAX_RECONNECT_DELAY : ℚ) + 1000) := by
    have := backoffBase_le_max n
    linarith
  calc reconnectDelay n jitter
      = ⌊backoffBase n + jitter⌋ := rfl
    _ ≤ ⌊((MAX_RECONNECT_DELAY : ℚ) + 1000)⌋ := Int.floor_le_floor hb
    _ ≤ (MAX_RECONNECT_DELAY : ℤ) + 1000 := by
        simp [MAX_RECONNECT_DELAY]

/-- Witness instantiating the C9 theorem at zero jitter and attempts
one and two. -/
theorem C9_backoff_bound_and_monotone_witness :
    ((0 : ℚ) ≤ 0 ∧ (0 : ℚ) < 1000 ∧ 1 ≤ 2) ∧
    ((handleReconnectStep ⟨5⟩ 0).1.attempts = 5 + 1 ∧
      (handleReconnectStep ⟨5⟩ 0).2 = ⌊backoffBase 5 + 0⌋ ∧
      reconnectDelay 1 0 ≤ (MAX_RECONNECT_DELAY : ℤ) + 1000 ∧
      backoffBase 1 ≤ backoffBase 2) :=
  ⟨⟨le_refl 0, by norm_num, by norm_num⟩,
    C9_backoff_bound_and_monotone ⟨5⟩ 1 2 0 (le_refl 0) (by norm_num)
      (by norm_num)⟩

/-- C10: the connected branch of sendMessage writes a freshly
generated uuid over any caller-supplied id, so the PONG with which the
client answers an inbound PING is transmitted with the fresh uuid as
its id and not with the id of the PING; since a fresh uuid differs
from the id it is meant to echo, id-based matching of that reply
cannot succeed. -/
theorem C10_pong_reply_gets_fresh_id (freshId pingId : String)
    (hne : freshId ≠ pingId) :
    (stampOutgoing freshId { type := "PONG", id := some pingId }).id =
      some freshId ∧
    (pongReplySent freshId (some pingId)).id = some freshId ∧
    (pongReplySent freshId (some pingId)).id ≠ some pingId := by
  refine ⟨rfl, rfl, ?_⟩
  simp [pongReplySent, stampOutgoing]
  exact hne

/-- Witness instantiating the C10 theorem at distinct concrete ids. -/
theorem C10_pong_reply_gets_fresh_id_witness :
    ("fresh-uuid" ≠ "ping-1") ∧
    ((stampOutgoing "fresh-uuid" { type := "PONG", id := some "ping-1" }).id =
        some "fresh-uuid" ∧
      (pongReplySent "fresh-uuid" (some "ping-1")).id = some "fresh-uuid" ∧
      (pongReplySent "fresh-uuid" (some "ping-1")).id ≠ some "ping-1") :=
  ⟨by decide, C10_pong_reply_gets_fresh_id "fresh-uuid" "ping-1" (by decide)⟩

end WSClient
